import Mathlib

/-!
# Verification of the bcdata WFS request planner and load pipeline

Shallow embedding of the core of the `bcdata` repository:

* `src/bcdata/wfs.py` — `get_sortkey`, `get_count`, `define_requests`
* `src/bcdata/bc2pg.py` — the `bc2pg` load orchestrator (validation order,
  geometry-type resolution, geometry normalization, chunked load).

Machine strings are modelled as Lean `String`; Python `str.upper` / `str.lower`
and `str.split` are modelled by structurally recursive functions over the
character list so that all definitions evaluate by kernel reduction.
Numeric feature counts are `Nat`.  Python float bounding-box coordinates enter
the program only through their textual rendering inside a CQL expression, so
they are modelled by the strings `str(b)` produces.
-/

/-- Python `str.lower()` (ASCII datasets names only are relevant here). -/
def pyLower (s : String) : String := String.mk (s.data.map Char.toLower)

/-- Python `str.upper()`. -/
def pyUpper (s : String) : String := String.mk (s.data.map Char.toUpper)

/-- Python `s.split(".")` on the character list: splits at every `.`,
keeping empty segments, never dropping the tail. -/
def splitDotChars : List Char → List (List Char)
  | [] => [[]]
  | c :: rest =>
    let r := splitDotChars rest
    if c = '.' then [] :: r
    else
      match r with
      | [] => [[c]]
      | h :: t => (c :: h) :: t

/-- Python `s.split(".")`. -/
def pySplitDot (s : String) : List String :=
  (splitDotChars s.data).map (fun cs => String.mk cs)

/-- Python truthiness of an optional string: `None` and `""` are falsy. -/
def truthyStr : Option String → Bool
  | none => false
  | some s => s != ""

/-- The single-quote character `'`, used when building CQL literals. -/
def singleQuote : String := String.singleton (Char.ofNat 39)

/-- Schema information returned by `WFS.get_schema("pub:" + table)`:
the ordered property (column) names and the geometry column name. -/
structure WfsSchema where
  properties : List String
  geometry_column : String
deriving DecidableEq, Repr

/-- `get_sortkey(table, wfs_schema)` from `src/bcdata/wfs.py` lines 32-46:
prefer a column literally named `OBJECTID`, else `SEQUENCE_ID`, else the
first declared column (`columns[0]`; Python raises `IndexError` when the
schema declares no columns, a case excluded by hypothesis below). -/
def get_sortkey (table : String) (wfs_schema : WfsSchema) : String :=
  let columns := wfs_schema.properties
  if "OBJECTID" ∈ columns then "OBJECTID"
  else if "SEQUENCE_ID" ∈ columns then "SEQUENCE_ID"
  else columns.headD ""

/-- The request-parameter dict built per chunk by `define_requests`
(`src/bcdata/wfs.py` lines 179-207).  `none` in an `Option` field means the
key is absent from the Python dict. -/
structure WfsRequest where
  service : String
  version : String
  request : String
  typeName : String
  outputFormat : String
  SRSNAME : String
  sortby : Option String
  CQL_FILTER : Option String
  count : Option Nat
  startIndex : Option Nat
deriving DecidableEq, Repr, Inhabited

/-- `src/bcdata/wfs.py` lines 158-159:
`if not count or count > n: count = n` — note Python falsiness: a supplied
count of `0` is treated the same as `None`. -/
def effectiveCount (count : Option Nat) (n : Nat) : Nat :=
  match count with
  | none => n
  | some c => if c = 0 ∨ c > n then n else c

/-- The `bbox(...)` CQL expression of `src/bcdata/wfs.py` line 195, with the
four coordinates already rendered as text (`str(b)`). -/
def bboxFilter (geom_column b0 b1 b2 b3 bounds_crs : String) : String :=
  "bbox(" ++ geom_column ++ ", " ++ b0 ++ ", " ++ b1 ++ ", " ++ b2 ++ ", "
    ++ b3 ++ ", " ++ singleQuote ++ bounds_crs ++ singleQuote ++ ")"

/-- `src/bcdata/wfs.py` lines 189-199: the value the `CQL_FILTER` key ends up
with, as a function of `query` and `bounds` (the `bbox` request-parameter
shortcut is never used).  Python truthiness: an empty `query` string behaves
like `None`. -/
def cqlFilterOf (query : Option String)
    (bounds : Option (String × String × String × String))
    (geom_column bounds_crs : String) : Option String :=
  match bounds with
  | none =>
    match query with
    | some q => if q = "" then none else some q
    | none => none
  | some (b0, b1, b2, b3) =>
    let bnd := bboxFilter geom_column b0 b1 b2 b3 bounds_crs
    match query with
    | none => some bnd
    | some q => if q = "" then some bnd else some (q ++ " AND " ++ bnd)

/-- `src/bcdata/wfs.py` lines 187-188: `if sortby: request["sortby"] =
sortby.upper()` — key absent when `sortby` is `None` or empty. -/
def sortbyParam : Option String → Option String
  | none => none
  | some s => if s = "" then none else some (pyUpper s)

/-- `src/bcdata/wfs.py` lines 200-207: attach the pagination window of chunk
`i` to the base request.  `chunks == 1` gets an explicit `count` and no
`startIndex`; `chunks > 1` gets `startIndex = i * pagesize` and
`count = count - startIndex` on the final short page, else `pagesize`. -/
def requestForChunk (base : WfsRequest) (chunks cnt pagesize i : Nat) :
    WfsRequest :=
  let r := if chunks = 1 then { base with count := some cnt } else base
  if chunks > 1 then
    { r with
      startIndex := some (i * pagesize),
      count :=
        some (if cnt < i * pagesize + pagesize then cnt - i * pagesize
              else pagesize) }
  else r

/-- `src/bcdata/wfs.py` lines 172-174: `if chunks > 1 and not sortby:
sortby = get_sortkey(table, wfs_schema)`. -/
def planSortby (chunks : Nat) (table : String) (wfs_schema : WfsSchema)
    (sortby : Option String) : Option String :=
  if chunks > 1 && !truthyStr sortby then some (get_sortkey table wfs_schema)
  else sortby

/-- `src/bcdata/wfs.py` lines 179-199: the chunk-independent part of the
request dict. -/
def baseRequest (table crs : String) (sortby : Option String)
    (cql : Option String) : WfsRequest :=
  { service := "WFS"
    version := "2.0.0"
    request := "GetFeature"
    typeName := table
    outputFormat := "json"
    SRSNAME := crs
    sortby := sortbyParam sortby
    CQL_FILTER := cql
    count := none
    startIndex := none }

/-- `define_requests` from `src/bcdata/wfs.py` lines 135-209, with the two
network effects factored out as arguments: `n` is the result of the
hits-only `bcdata.get_count(table, query)` call and `wfs_schema` the result
of `WFS.get_schema`.  `table` is the already-validated dataset name.
The source returns `WFS_URL + "?" + urlencode(request)` per chunk; we return
the request dicts themselves, in order. -/
def defineRequests (table : String) (n : Nat) (wfs_schema : WfsSchema)
    (query : Option String) (crs : String)
    (bounds : Option (String × String × String × String))
    (bounds_crs : String) (count : Option Nat) (sortby : Option String)
    (pagesize : Nat) : List WfsRequest :=
  let cnt := effectiveCount count n
  -- chunks = math.ceil(count / pagesize)
  let chunks := (cnt + pagesize - 1) / pagesize
  let base : WfsRequest :=
    baseRequest table crs (planSortby chunks table wfs_schema sortby)
      (cqlFilterOf query bounds wfs_schema.geometry_column bounds_crs)
  (List.range chunks).map (requestForChunk base chunks cnt pagesize)

/-- The key/value pairs of the request dict in Python insertion order, as
passed to `urlencode` (`src/bcdata/wfs.py` line 208). -/
def toParams (r : WfsRequest) : List (String × String) :=
  [("service", r.service), ("version", r.version), ("request", r.request),
   ("typeName", r.typeName), ("outputFormat", r.outputFormat),
   ("SRSNAME", r.SRSNAME)]
  ++ (match r.sortby with | some s => [("sortby", s)] | none => [])
  ++ (match r.CQL_FILTER with | some q => [("CQL_FILTER", q)] | none => [])
  ++ (match r.startIndex with | some i => [("startIndex", toString i)] | none => [])
  ++ (match r.count with | some c => [("count", toString c)] | none => [])

/-- The pagination window `(startIndex, count)` of a request; an absent
`startIndex` means the window starts at feature 0. -/
def window (r : WfsRequest) : Nat × Nat :=
  (r.startIndex.getD 0, r.count.getD 0)

/-- Forget the pagination window: all remaining fields are the
chunk-independent request parameters. -/
def eraseWindow (r : WfsRequest) : WfsRequest :=
  { r with startIndex := none, count := none }

/-! ## Geometry model and the `bc2pg` load orchestrator (`src/bcdata/bc2pg.py`) -/

/-- A coordinate, as its list of numeric components (2, or 3 when a Z value
is present). -/
abbrev Coord := List Int

/-- Shapely geometry values as they appear in the dataframe `geom` column:
the six vector shapes plus a missing (`None`/NaN) geometry. -/
inductive Geometry
  | point (c : Coord)
  | multipoint (cs : List Coord)
  | linestring (cs : List Coord)
  | multilinestring (ls : List (List Coord))
  | polygon (rings : List (List Coord))
  | multipolygon (polys : List (List (List Coord)))
  | null
deriving DecidableEq, Repr, Inhabited

/-- `isinstance(feature, Point)`-style promotion of `src/bcdata/bc2pg.py`
lines 171-174: a single `Point` becomes a one-element `MultiPoint`; every
other value passes through the list comprehension unchanged. -/
def castMultiPoint : Geometry → Geometry
  | .point c => .multipoint [c]
  | g => g

/-- `src/bcdata/bc2pg.py` lines 175-180: `LineString` → one-element
`MultiLineString`. -/
def castMultiLineString : Geometry → Geometry
  | .linestring cs => .multilinestring [cs]
  | g => g

/-- `src/bcdata/bc2pg.py` lines 181-184: `Polygon` → one-element
`MultiPolygon`. -/
def castMultiPolygon : Geometry → Geometry
  | .polygon rings => .multipolygon [rings]
  | g => g

/-- The effect of the three successive comprehensions on one geometry. -/
def normalizeGeom (g : Geometry) : Geometry :=
  castMultiPolygon (castMultiLineString (castMultiPoint g))

/-- The three successive list comprehensions of `src/bcdata/bc2pg.py`
lines 171-184 over the `geom` column of a batch. -/
def normalizeBatch (batch : List Geometry) : List Geometry :=
  ((batch.map castMultiPoint).map castMultiLineString).map castMultiPolygon

/-- Geopandas `geom_type` of one row: the shapely type name, `None` for a
missing geometry. -/
def geomTypeName : Geometry → Option String
  | .point _ => some "Point"
  | .multipoint _ => some "MultiPoint"
  | .linestring _ => some "LineString"
  | .multilinestring _ => some "MultiLineString"
  | .polygon _ => some "Polygon"
  | .multipolygon _ => some "MultiPolygon"
  | .null => none

/-- The first coordinate of a geometry, if any. -/
def firstCoord : Geometry → Option Coord
  | .point c => some c
  | .multipoint cs => cs.head?
  | .linestring cs => cs.head?
  | .multilinestring ls => ls.head?.bind List.head?
  | .polygon rings => rings.head?.bind List.head?
  | .multipolygon polys => (polys.head?.bind List.head?).bind List.head?
  | .null => none

/-- Geopandas `has_z` of one row: whether the geometry's coordinates carry a
third component (shapely geometries have one uniform coordinate dimension,
so the first coordinate decides; `False` for a missing geometry). -/
def geomHasZ (g : Geometry) : Bool :=
  match firstCoord g with
  | some c => c.length == 3
  | none => false

/-- `SUPPORTED_TYPES` from `src/bcdata/bc2pg.py` lines 21-32 (verbatim; note
`POLYGONZ` and `MULTIPOLYGONZ` are absent). -/
def SUPPORTED_TYPES : List String :=
  ["POINT", "POINTZ", "MULTIPOINT", "MULTIPOINTZ", "LINESTRING", "LINESTRINGZ",
   "MULTILINESTRING", "MULTILINESTRINGZ", "POLYGON", "MULTIPOLYGON"]

/-- Geometry-type resolution from one probe batch, `src/bcdata/bc2pg.py`
lines 98-102 (and identically lines 106-113 for the second probe):
`geometry_type = df.geom_type.unique()[0]` takes the first distinct value,
i.e. row 0's `geom_type` (`None` when row 0 has no geometry); the Z flag is
`numpy.any(df.has_z.unique()[0])`, i.e. row 0's `has_z` value.  The source
raises `IndexError` on an empty frame; an empty probe resolves to `none`
here and the claims only concern non-empty probes. -/
def resolveGeometryType (df : List Geometry) : Option String :=
  match df.head? with
  | none => none
  | some g0 =>
    match geomTypeName g0 with
    | none => none
    | some t => some (if geomHasZ g0 then t ++ "Z" else t)

/-! ### `get_count` error routing (`src/bcdata/wfs.py` lines 98-118) -/

/-- Outcome of `requests.get(WFS_URL, params=payload)` followed by
`r.raise_for_status()` inside `get_count`:
* the request succeeded with status 200 and a `numberMatched` attribute;
* `raise_for_status` raised `requests.exceptions.HTTPError` (non-2xx status);
* `requests.get` itself raised a network-level `requests.exceptions.RequestException`
  (e.g. `ConnectionError`, `Timeout`) — these are **not** subclasses of
  `HTTPError`. -/
inductive HitsOutcome
  | ok (numberMatched : Nat)
  | httpStatusError
  | requestFailure
deriving DecidableEq, Repr

/-- How a failing `get_count` call terminates. -/
inductive PyFailure
  | systemExit
  | uncaughtRequestException
deriving DecidableEq, Repr

/-- `get_count` from `src/bcdata/wfs.py` lines 98-118, reduced to its
exception routing: the `try` block runs `requests.get` and
`raise_for_status`, and the single `except requests.exceptions.HTTPError`
clause converts an `HTTPError` to `raise SystemExit(err)`.  A network-level
`RequestException` matches no handler and propagates uncaught. -/
def get_count (outcome : HitsOutcome) : Except PyFailure Nat :=
  match outcome with
  | .ok n => Except.ok n
  | .httpStatusError => Except.error PyFailure.systemExit
  | .requestFailure => Except.error PyFailure.uncaughtRequestException

/-! ### The `bc2pg` orchestrator -/

/-- Observable effects of one `bc2pg` invocation, in program order. -/
inductive Ev
  | definedRequests
  | checkedDbTables
  | gotDbColumns
  | gotTableDefinition
  | fetchedFeatures (i : Nat)
  | createdTable (geometryType : String)
  | wroteGeomRows (k : Nat)
  | wroteNullRows (k : Nat)
  | wroteLog
deriving DecidableEq, Repr

/-- The fatal errors (`raise ValueError(...)` sites and the
`None.upper()` crash) of `bc2pg`. -/
inductive PgErr
  | targetMissing
  | schemaUnavailable
  | unresolvedGeometry
  | unsupportedGeometry
  | invalidPrimaryKey
  | invalidSortby
deriving DecidableEq, Repr

/-- The keyword arguments of `bc2pg` (`src/bcdata/bc2pg.py` lines 35-48);
`dataset` is the already-validated name. -/
structure Bc2pgArgs where
  dataset : String
  schema : Option String
  table : Option String
  geometry_type : Option String
  query : Option String
  count : Option Nat
  sortby : Option String
  primary_key : Option String
  timestamp : Bool
  schema_only : Bool
  append : Bool
deriving Repr

/-- The external collaborators of one `bc2pg` run: the database state, the
catalogue answer, the hits count and schema used by `define_requests`, and
the per-request feature batches (`geom` column) the WFS returns, aligned
with the request list. -/
structure PgEnv where
  dbTables : List String
  dbColumns : List String
  tableDefSchema : List String
  totalCount : Nat
  wfsSchema : WfsSchema
  batches : List (List Geometry)
deriving Repr

/-- `schema_name` of `src/bcdata/bc2pg.py` lines 51-53:
`dataset.lower().split(".")[0]`, overridden by a lower-cased `schema`
argument. -/
def bc2pgSchemaName (a : Bc2pgArgs) : String :=
  match a.schema with
  | some s => pyLower s
  | none => (pySplitDot (pyLower a.dataset)).getD 0 ""

/-- `table_name` of `src/bcdata/bc2pg.py` lines 51-55. -/
def bc2pgTableName (a : Bc2pgArgs) : String :=
  match a.table with
  | some t => pyLower t
  | none => (pySplitDot (pyLower a.dataset)).getD 1 ""

/-- `schema_name + "." + table_name`, the storage identifier of the run. -/
def bc2pgFullName (a : Bc2pgArgs) : String :=
  bc2pgSchemaName a ++ "." ++ bc2pgTableName a

/-- The per-chunk load loop of `src/bcdata/bc2pg.py` lines 150-196: for each
request index, fetch the batch unless the first batch is already in hand
from the geometry probe, split off null-geometry rows, promote the rest to
multi-part, and append both subsets. -/
def loadLoop (batches : List (List Geometry)) (idxs : List Nat)
    (df : Option (List Geometry)) : List Ev :=
  match idxs with
  | [] => []
  | i :: rest =>
    let fetched : List Ev × List Geometry :=
      match df with
      | some d => ([], d)
      | none => ([Ev.fetchedFeatures i], batches.getD i [])
    let dfi := fetched.2
    let df_nulls := dfi.filter (fun g => g == Geometry.null)
    let df_geoms := normalizeBatch (dfi.filter (fun g => g != Geometry.null))
    fetched.1
      ++ [Ev.wroteGeomRows df_geoms.length, Ev.wroteNullRows df_nulls.length]
      ++ loadLoop batches rest none

/-- `src/bcdata/bc2pg.py` lines 148-215: the whole load stage is skipped when
`schema_only`, and the `bcdata.log` upsert runs after the loop when
`timestamp` is set. -/
def loadEvents (env : PgEnv) (a : Bc2pgArgs) (urls : List WfsRequest)
    (df0 : Option (List Geometry)) : List Ev :=
  if a.schema_only then []
  else
    loadLoop env.batches (List.range urls.length) df0
      ++ (if a.timestamp then [Ev.wroteLog] else [])

/-- Continuation common to both modes, from the sortby check on
(`src/bcdata/bc2pg.py` lines 142-217): `if sortby and sortby.lower() not in
column_names: raise ValueError`, then the load loop, then the return value
`schema_name + "." + table_name`. -/
def afterColumns (env : PgEnv) (a : Bc2pgArgs) (urls : List WfsRequest)
    (evs : List Ev) (column_names : List String)
    (df0 : Option (List Geometry)) (schema_name table_name : String) :
    List Ev × Except PgErr String :=
  if (match a.sortby with
      | some s => s != "" && decide (pyLower s ∉ column_names)
      | none => false) then
    (evs, Except.error PgErr.invalidSortby)
  else
    (evs ++ loadEvents env a urls df0,
     Except.ok (schema_name ++ "." ++ table_name))

/-- `src/bcdata/bc2pg.py` lines 94-102, first `if not geometry_type:` probe
of `urls[0]` — the fetch events it performs. -/
def probeEvents1 (a : Bc2pgArgs) : List Ev :=
  if truthyStr a.geometry_type then [] else [Ev.fetchedFeatures 0]

/-- The geometry type after the first probe: the supplied one when truthy,
else the type resolved from the first page's batch. -/
def probeType1 (env : PgEnv) (a : Bc2pgArgs) : Option String :=
  if truthyStr a.geometry_type then a.geometry_type
  else resolveGeometryType (env.batches.getD 0 [])

/-- The dataframe kept in hand after the probe (`df` is the first batch when
a probe happened, line 95, and is reused by the load loop's first
iteration). -/
def probeDf (env : PgEnv) (a : Bc2pgArgs) : Option (List Geometry) :=
  if truthyStr a.geometry_type then none else some (env.batches.getD 0 [])

/-- `src/bcdata/bc2pg.py` lines 104-115, second `if not geometry_type:`
probe of `urls[-1]` (only when it is a different request) — its fetch
events. -/
def probeEvents2 (env : PgEnv) (a : Bc2pgArgs) (urls : List WfsRequest) :
    List Ev :=
  if truthyStr (probeType1 env a) then []
  else if urls.getLastD default ≠ urls.headD default then
    [Ev.fetchedFeatures (urls.length - 1)]
  else []

/-- The geometry type after both probes. -/
def probeType2 (env : PgEnv) (a : Bc2pgArgs) (urls : List WfsRequest) :
    Option String :=
  if truthyStr (probeType1 env a) then probeType1 env a
  else if urls.getLastD default ≠ urls.headD default then
    resolveGeometryType (env.batches.getD (urls.length - 1) [])
  else probeType1 env a

/-- `src/bcdata/bc2pg.py` lines 122-127: `if primary_key and
primary_key.upper() not in [c["column_name"].upper() for c in
table_definition["schema"]]`. -/
def primaryKeyBad (env : PgEnv) (a : Bc2pgArgs) : Bool :=
  match a.primary_key with
  | some pk => pk != "" && decide (pyUpper pk ∉ env.tableDefSchema.map pyUpper)
  | none => false

/-- The create-mode branch of `src/bcdata/bc2pg.py` lines 84-139: fetch the
catalogue table definition (fatal when it has no schema), resolve the
geometry type by probing the first — and possibly the last — page when none
was supplied, upper-case and validate it against `SUPPORTED_TYPES`, validate
the primary key, create the table, and derive the target column list. -/
def createBranch (env : PgEnv) (a : Bc2pgArgs) (urls : List WfsRequest)
    (evs : List Ev) (schema_name table_name : String) :
    List Ev × Except PgErr String :=
  let evs := evs ++ [Ev.gotTableDefinition]
  if env.tableDefSchema = [] then (evs, Except.error PgErr.schemaUnavailable)
  else
    let evs := evs ++ probeEvents1 a ++ probeEvents2 env a urls
    match probeType2 env a urls with
    | none =>
      -- line 118: `geometry_type.upper()` on `None` raises AttributeError
      (evs, Except.error PgErr.unresolvedGeometry)
    | some g =>
      let gU := pyUpper g
      if gU ∉ SUPPORTED_TYPES then (evs, Except.error PgErr.unsupportedGeometry)
      else if primaryKeyBad env a then
        (evs, Except.error PgErr.invalidPrimaryKey)
      else
        -- `db.define_table(...)` lives outside src/.  Modelled from the spec:
        -- the TargetTable column list is the catalogue schema lower-cased plus
        -- the fixed geometry column "geom".
        let column_names := env.tableDefSchema.map pyLower ++ ["geom"]
        afterColumns env a urls (evs ++ [Ev.createdTable gU]) column_names
          (probeDf env a) schema_name table_name

/-- `bc2pg` from `src/bcdata/bc2pg.py` lines 35-217 as an event trace plus
result.  `define_requests` is called unconditionally before the mode split
(line 64); in append mode the target table must already exist (lines 76-81)
and its column list is read from the database, else the catalogue-driven
create branch runs. -/
def bc2pg (env : PgEnv) (a : Bc2pgArgs) : List Ev × Except PgErr String :=
  let schema_name := bc2pgSchemaName a
  let table_name := bc2pgTableName a
  let urls := defineRequests a.dataset env.totalCount env.wfsSchema a.query
    "epsg:3005" none "EPSG:3005" a.count a.sortby 10000
  let evs := [Ev.definedRequests]
  if a.append then
    let evs := evs ++ [Ev.checkedDbTables]
    if (schema_name ++ "." ++ table_name) ∉ env.dbTables then
      (evs, Except.error PgErr.targetMissing)
    else
      afterColumns env a urls (evs ++ [Ev.gotDbColumns]) env.dbColumns none
        schema_name table_name
  else createBranch env a urls evs schema_name table_name

/-! ## Planner lemmas -/

theorem defineRequests_eq (table : String) (n : Nat) (sch : WfsSchema)
    (query : Option String) (crs : String)
    (bounds : Option (String × String × String × String)) (bcrs : String)
    (count : Option Nat) (sortby : Option String) (p : Nat) :
    defineRequests table n sch query crs bounds bcrs count sortby p
      = (List.range ((effectiveCount count n + p - 1) / p)).map
          (requestForChunk
            (baseRequest table crs
              (planSortby ((effectiveCount count n + p - 1) / p) table sch sortby)
              (cqlFilterOf query bounds sch.geometry_column bcrs))
            ((effectiveCount count n + p - 1) / p) (effectiveCount count n) p) :=
  rfl

theorem eraseWindow_requestForChunk (b : WfsRequest) (c n p i : Nat) :
    eraseWindow (requestForChunk b c n p i) = eraseWindow b := by
  simp only [requestForChunk, eraseWindow]
  split <;> split <;> rfl

theorem requestForChunk_CQL_FILTER (b : WfsRequest) (c n p i : Nat) :
    (requestForChunk b c n p i).CQL_FILTER = b.CQL_FILTER := by
  have h := eraseWindow_requestForChunk b c n p i
  calc (requestForChunk b c n p i).CQL_FILTER
      = (eraseWindow (requestForChunk b c n p i)).CQL_FILTER := rfl
    _ = (eraseWindow b).CQL_FILTER := by rw [h]
    _ = b.CQL_FILTER := rfl

theorem requestForChunk_sortby (b : WfsRequest) (c n p i : Nat) :
    (requestForChunk b c n p i).sortby = b.sortby := by
  have h := eraseWindow_requestForChunk b c n p i
  calc (requestForChunk b c n p i).sortby
      = (eraseWindow (requestForChunk b c n p i)).sortby := rfl
    _ = (eraseWindow b).sortby := by rw [h]
    _ = b.sortby := rfl

theorem ite_count_eq_min (n p i : Nat) (hp : 0 < p) :
    (if n < i * p + p then n - i * p else p) = min p (n - i * p) := by
  rw [Nat.min_def]
  by_cases hle : p ≤ n - i * p
  · rw [if_pos hle, if_neg (by omega)]
  · rw [if_neg hle, if_pos (by omega)]

theorem window_requestForChunk (b : WfsRequest) (hb : b.startIndex = none)
    (n p : Nat) (hp : 0 < p) (i : Nat) (hik : i < (n + p - 1) / p) :
    window (requestForChunk b ((n + p - 1) / p) n p i)
      = (i * p, min p (n - i * p)) := by
  rcases Nat.lt_or_ge 1 ((n + p - 1) / p) with h1 | h1
  · have hne : ¬((n + p - 1) / p = 1) := by omega
    simp only [requestForChunk, if_neg hne, if_pos h1]
    simp only [window, Option.getD_some]
    exact Prod.ext rfl (ite_count_eq_min n p i hp)
  · have hc1 : (n + p - 1) / p = 1 := by omega
    have hi0 : i = 0 := by omega
    subst hi0
    have hnle : n ≤ p := by
      have h2 : (n + p - 1) / p < 2 := by omega
      have := (Nat.div_lt_iff_lt_mul hp).mp h2
      omega
    have hn1 : 1 ≤ n := by
      by_contra hcon
      have : (n + p - 1) / p = 0 := Nat.div_eq_of_lt (by omega)
      omega
    rw [hc1]
    simp [requestForChunk, window, hb]
    omega

theorem sum_min_windows (p : Nat) (hp : 0 < p) :
    ∀ n : Nat,
      ((List.range ((n + p - 1) / p)).map (fun i => min p (n - i * p))).sum = n := by
  intro n
  induction n using Nat.strong_induction_on with
  | _ n ih =>
    rcases Nat.eq_zero_or_pos n with h0 | hn
    · subst h0
      have hz : (0 + p - 1) / p = 0 := Nat.div_eq_of_lt (by omega)
      rw [hz]
      simp
    · by_cases hnp : n ≤ p
      · have hk : (n + p - 1) / p = 1 :=
          Nat.div_eq_of_lt_le (by omega) (by omega)
        rw [hk, show List.range 1 = [0] from rfl]
        simp only [List.map_cons, List.map_nil, List.sum_cons, List.sum_nil]
        omega
      · push_neg at hnp
        have hstep : (n + p - 1) / p = ((n - p) + p - 1) / p + 1 := by
          have heq : n + p - 1 = ((n - p) + p - 1) + p := by omega
          rw [heq, Nat.add_div_right _ hp]
        rw [hstep, List.range_succ_eq_map]
        simp only [List.map_cons, List.map_map, List.sum_cons]
        have hcomp : ((fun i => min p (n - i * p)) ∘ Nat.succ)
            = fun i : Nat => min p ((n - p) - i * p) := by
          funext i
        -- placeholder
          show min p (n - Nat.succ i * p) = min p ((n - p) - i * p)
          rw [Nat.succ_mul]
          exact congrArg (min p) (by omega)
        rw [hcomp, ih (n - p) (by omega)]
        have hmin0 : min p (n - 0 * p) = p := by
          rw [Nat.zero_mul, Nat.sub_zero, Nat.min_eq_left (by omega)]
        rw [hmin0]
        omega

theorem defineRequests_map_window (table : String) (sch : WfsSchema)
    (query : Option String) (crs : String)
    (bounds : Option (String × String × String × String)) (bcrs : String)
    (sortby : Option String) (n p : Nat) (hp : 0 < p) :
    (defineRequests table n sch query crs bounds bcrs none sortby p).map window
      = (List.range ((n + p - 1) / p)).map
          (fun i => (i * p, min p (n - i * p))) := by
  rw [defineRequests_eq, show effectiveCount none n = n from rfl, List.map_map]
  apply List.map_congr_left
  intro i hi
  rw [List.mem_range] at hi
  simp only [Function.comp]
  exact window_requestForChunk _ rfl n p hp i hi

theorem defineRequests_length (table : String) (sch : WfsSchema)
    (query : Option String) (crs : String)
    (bounds : Option (String × String × String × String)) (bcrs : String)
    (count : Option Nat) (sortby : Option String) (n p : Nat) :
    (defineRequests table n sch query crs bounds bcrs count sortby p).length
      = (effectiveCount count n + p - 1) / p := by
  rw [defineRequests_eq, List.length_map, List.length_range]

theorem defineRequests_sum_counts (table : String) (sch : WfsSchema)
    (query : Option String) (crs : String)
    (bounds : Option (String × String × String × String)) (bcrs : String)
    (sortby : Option String) (n p : Nat) (hp : 0 < p) :
    ((defineRequests table n sch query crs bounds bcrs none sortby p).map
      (fun r => (window r).2)).sum = n := by
  rw [defineRequests_eq, show effectiveCount none n = n from rfl, List.map_map]
  rw [List.map_congr_left (g := fun i => min p (n - i * p)) ?_]
  · exact sum_min_windows p hp n
  · intro i hi
    rw [List.mem_range] at hi
    simp only [Function.comp]
    exact congrArg Prod.snd (window_requestForChunk _ rfl n p hp i hi)

/-- C1: for every total feature count `n ≥ 1` and page size `p ≥ 1`,
`define_requests` produces exactly `ceil(n/p)` descriptors; descriptor `i`'s
pagination window is `(i*p, min p (n - i*p))`, the windows are contiguous
(each starts where the previous one ends), the first starts at 0, and the
window counts sum exactly to `n` — so the windows partition `[0, n)` with no
gaps and no overlaps. -/
theorem C1_planner_partition (table : String) (sch : WfsSchema)
    (query : Option String) (crs : String)
    (bounds : Option (String × String × String × String)) (bcrs : String)
    (sortby : Option String) (n p : Nat) (hn : 1 ≤ n) (hp : 1 ≤ p) :
    (defineRequests table n sch query crs bounds bcrs none sortby p).length
      = (n + p - 1) / p
    ∧ (defineRequests table n sch query crs bounds bcrs none sortby p).map window
      = (List.range ((n + p - 1) / p)).map (fun i => (i * p, min p (n - i * p)))
    ∧ List.Chain' (fun w1 w2 => w2.1 = w1.1 + w1.2)
        ((defineRequests table n sch query crs bounds bcrs none sortby p).map
          window)
    ∧ ((defineRequests table n sch query crs bounds bcrs none sortby p).map
        window).head? = some (0, min p n)
    ∧ ((defineRequests table n sch query crs bounds bcrs none sortby p).map
        (fun r => (window r).2)).sum = n := by
  have hk1 : 1 ≤ (n + p - 1) / p :=
    (Nat.one_le_div_iff (by omega)).mpr (by omega)
  obtain ⟨k', hk'⟩ : ∃ k', (n + p - 1) / p = k' + 1 :=
    ⟨(n + p - 1) / p - 1, by omega⟩
  refine ⟨?_, defineRequests_map_window table sch query crs bounds bcrs sortby
    n p (by omega), ?_, ?_, defineRequests_sum_counts table sch query crs
    bounds bcrs sortby n p (by omega)⟩
  · rw [defineRequests_length]
    rfl
  · rw [defineRequests_map_window table sch query crs bounds bcrs sortby n p
      (by omega)]
    rw [List.chain'_map, hk', List.chain'_range_succ]
    intro m hm
    show m.succ * p = m * p + min p (n - m * p)
    have h1 : m.succ * p = m * p + p := Nat.succ_mul m p
    have h2 : (m + 2) * p = m * p + 2 * p := by ring
    have h3 : ((n + p - 1) / p) * p ≤ n + p - 1 := Nat.div_mul_le_self _ _
    have h4 : (m + 2) * p ≤ ((n + p - 1) / p) * p :=
      Nat.mul_le_mul_right p (by omega)
    omega
  · rw [defineRequests_map_window table sch query crs bounds bcrs sortby n p
      (by omega)]
    rw [hk', List.range_succ_eq_map, List.map_cons, List.head?_cons]
    have : min p (n - 0 * p) = min p n := by
      rw [Nat.zero_mul, Nat.sub_zero]
    rw [show ((0 : Nat) * p, min p (n - 0 * p)) = ((0 : Nat), min p n) from by
      rw [Nat.zero_mul, Nat.sub_zero]]

/-- Witness for C1 at the spec's own example `n = 25000`, `p = 10000`:
three descriptors with windows `(0,10000)`, `(10000,10000)`, `(20000,5000)`
summing to 25000. -/
theorem C1_planner_partition_witness :
    (defineRequests "T" 25000 ⟨["OBJECTID", "NAME"], "GEOMETRY"⟩ none
      "epsg:4326" none "EPSG:3005" none none 10000).length = 3
    ∧ ((defineRequests "T" 25000 ⟨["OBJECTID", "NAME"], "GEOMETRY"⟩ none
        "epsg:4326" none "EPSG:3005" none none 10000).map
        (fun r => (window r).2)).sum = 25000 := by
  have h := C1_planner_partition "T" ⟨["OBJECTID", "NAME"], "GEOMETRY"⟩ none
    "epsg:4326" none "EPSG:3005" none 25000 10000 (by decide) (by decide)
  exact ⟨h.1, h.2.2.2.2⟩

theorem mem_defineRequests {table : String} {n : Nat} {sch : WfsSchema}
    {query : Option String} {crs : String}
    {bounds : Option (String × String × String × String)} {bcrs : String}
    {count : Option Nat} {sortby : Option String} {p : Nat} {r : WfsRequest} :
    r ∈ defineRequests table n sch query crs bounds bcrs count sortby p →
    ∃ i, i < (effectiveCount count n + p - 1) / p
      ∧ r = requestForChunk
          (baseRequest table crs
            (planSortby ((effectiveCount count n + p - 1) / p) table sch sortby)
            (cqlFilterOf query bounds sch.geometry_column bcrs))
          ((effectiveCount count n + p - 1) / p) (effectiveCount count n) p i := by
  intro hr
  rw [defineRequests_eq, List.mem_map] at hr
  obtain ⟨i, hi, hri⟩ := hr
  exact ⟨i, List.mem_range.mp hi, hri.symm⟩

theorem baseRequest_sortby (table crs : String) (s cql : Option String) :
    (baseRequest table crs s cql).sortby = sortbyParam s := rfl

theorem baseRequest_CQL_FILTER (table crs : String) (s cql : Option String) :
    (baseRequest table crs s cql).CQL_FILTER = cql := rfl

theorem planSortby_auto (c : Nat) (table : String) (sch : WfsSchema)
    (hc : 1 < c) : planSortby c table sch none = some (get_sortkey table sch) := by
  simp [planSortby, truthyStr, hc]

/-- C2 counterexample: an effective feature count of 0 is at most the page
size 10, yet `define_requests` produces zero descriptors, not one (the
claim's `chunkCount == 1` parenthetical fails: `ceil(0/10) = 0`). -/
theorem C2_single_chunk_counterexample :
    (defineRequests "t" 0 ⟨["A"], "G"⟩ none "epsg:4326" none "EPSG:3005" none
      none 10) = []
    ∧ (0 : Nat) ≤ 10 := ⟨rfl, by decide⟩

/-- C2 amended: whenever the effective count satisfies `1 ≤ n ≤ p` (so that
`chunkCount == 1`), `define_requests` produces exactly one descriptor, and it
carries `count = n` and no `startIndex` window.  (When `n = 0`, zero
descriptors are produced.) -/
theorem C2_single_chunk (table : String) (sch : WfsSchema)
    (query : Option String) (crs : String)
    (bounds : Option (String × String × String × String)) (bcrs : String)
    (sortby : Option String) (n p : Nat) (hn : 1 ≤ n) (hnp : n ≤ p) :
    (defineRequests table n sch query crs bounds bcrs none sortby p).length = 1
    ∧ ∀ r ∈ defineRequests table n sch query crs bounds bcrs none sortby p,
        r.count = some n ∧ r.startIndex = none := by
  have hp : 0 < p := by omega
  have hk : (effectiveCount none n + p - 1) / p = 1 := by
    rw [show effectiveCount none n = n from rfl]
    exact Nat.div_eq_of_lt_le (by omega) (by omega)
  constructor
  · rw [defineRequests_length, hk]
  · intro r hr
    obtain ⟨i, hi, hreq⟩ := mem_defineRequests hr
    rw [hk] at hreq hi
    have hi0 : i = 0 := by omega
    subst hi0
    subst hreq
    constructor
    · simp [requestForChunk, effectiveCount]
    · simp [requestForChunk, baseRequest]

/-- Witness for the amended C2 at `n = 5`, `p = 10`. -/
theorem C2_single_chunk_witness :
    (defineRequests "t" 5 ⟨["OBJECTID"], "G"⟩ none "epsg:4326" none "EPSG:3005"
      none none 10).length = 1 :=
  (C2_single_chunk "t" ⟨["OBJECTID"], "G"⟩ none "epsg:4326" none "EPSG:3005"
    none 5 10 (by decide) (by decide)).1

/-- C3 counterexample: a supplied `count` of 0 with `totalCount = 5` is
*not* used unchanged — Python's `if not count` treats 0 as absent, so the
effective count is 5 (one descriptor is planned), while
`min(maxCount, totalCount) = min 0 5 = 0`. -/
theorem C3_effective_count_counterexample :
    effectiveCount (some 0) 5 = 5
    ∧ min 0 5 = 0
    ∧ effectiveCount (some 0) 5 ≠ min 0 5
    ∧ (defineRequests "t" 5 ⟨["A"], "G"⟩ none "epsg:4326" none "EPSG:3005"
        (some 0) none 10).length = 1 :=
  ⟨rfl, rfl, by decide, rfl⟩

/-- C3 amended: the effective count used for planning equals
`min(maxCount, totalCount)` when `maxCount` is given and nonzero, and equals
`totalCount` when `maxCount` is not given **or is 0** (Python falsiness);
`define_requests` plans `ceil(effectiveCount/p)` descriptors from it. -/
theorem C3_effective_count (n c : Nat) (table : String) (sch : WfsSchema)
    (query : Option String) (crs : String)
    (bounds : Option (String × String × String × String)) (bcrs : String)
    (count : Option Nat) (sortby : Option String) (p : Nat) :
    effectiveCount none n = n
    ∧ effectiveCount (some 0) n = n
    ∧ effectiveCount (some (c + 1)) n = min (c + 1) n
    ∧ (defineRequests table n sch query crs bounds bcrs count sortby p).length
        = (effectiveCount count n + p - 1) / p := by
  refine ⟨rfl, rfl, ?_, defineRequests_length table sch query crs bounds bcrs
    count sortby n p⟩
  simp only [effectiveCount]
  rcases le_or_lt (c + 1) n with h | h
  · rw [if_neg (by omega), Nat.min_eq_left h]
  · rw [if_pos (by omega), Nat.min_eq_right (by omega)]

/-- C4: when more than one chunk is planned and no sort key is supplied,
a sort key is auto-selected and attached (upper-cased) to every descriptor,
with the exact precedence: a column literally named `OBJECTID`; else
`SEQUENCE_ID`; else the first column in the schema's declared property
order. -/
theorem C4_auto_sortkey (table : String) (sch : WfsSchema)
    (query : Option String) (crs : String)
    (bounds : Option (String × String × String × String)) (bcrs : String)
    (n p : Nat) (hp : 1 ≤ p) (hnp : p < n)
    (hkey : get_sortkey table sch ≠ "") :
    ((defineRequests table n sch query crs bounds bcrs none none p).all
      (fun r => decide (r.sortby = some (pyUpper (get_sortkey table sch)))))
      = true
    ∧ ("OBJECTID" ∈ sch.properties → get_sortkey table sch = "OBJECTID")
    ∧ ("OBJECTID" ∉ sch.properties → "SEQUENCE_ID" ∈ sch.properties →
        get_sortkey table sch = "SEQUENCE_ID")
    ∧ (∀ c cs, sch.properties = c :: cs → "OBJECTID" ∉ sch.properties →
        "SEQUENCE_ID" ∉ sch.properties → get_sortkey table sch = c) := by
  have hch : 1 < (effectiveCount none n + p - 1) / p := by
    rw [show effectiveCount none n = n from rfl]
    exact (Nat.le_div_iff_mul_le (by omega)).mpr (by omega)
  refine ⟨?_, ?_, ?_, ?_⟩
  · rw [List.all_eq_true]
    intro r hr
    obtain ⟨i, hi, hreq⟩ := mem_defineRequests hr
    rw [decide_eq_true_eq, hreq, requestForChunk_sortby, baseRequest_sortby,
      planSortby_auto _ table sch hch]
    simp only [sortbyParam]
    rw [if_neg hkey]
  · intro h
    simp [get_sortkey, h]
  · intro h1 h2
    simp [get_sortkey, h1, h2]
  · intro c cs hcons h1 h2
    rw [hcons] at h1 h2
    simp only [List.mem_cons, not_or] at h1 h2
    obtain ⟨h1a, h1b⟩ := h1
    obtain ⟨h2a, h2b⟩ := h2
    simp [get_sortkey, hcons, h1a, h1b, h2a, h2b]

/-- Witness for C4: columns `{FEATURE_ID, NAME}` with `n = 15 > p = 10`
select `FEATURE_ID`, attached to every descriptor. -/
theorem C4_auto_sortkey_witness :
    ((defineRequests "t" 15 ⟨["FEATURE_ID", "NAME"], "G"⟩ none "epsg:4326"
        none "EPSG:3005" none none 10).all
      (fun r => decide (r.sortby
        = some (pyUpper (get_sortkey "t" ⟨["FEATURE_ID", "NAME"], "G"⟩)))))
      = true :=
  (C4_auto_sortkey "t" ⟨["FEATURE_ID", "NAME"], "G"⟩ none "epsg:4326" none
    "EPSG:3005" 15 10 (by decide) (by decide) (by decide)).1

theorem toParams_no_bbox (r : WfsRequest) :
    ((toParams r).all (fun kv => kv.1 != "bbox")) = true := by
  obtain ⟨s1, s2, s3, s4, s5, s6, so, sc, cnt, si⟩ := r
  cases so <;> cases sc <;> cases cnt <;> cases si <;>
    simp [toParams, List.all_append, List.all_cons, List.all_nil]

/-- C5: the spatial predicate is always emitted as CQL filter text, never as
a separate `bbox` request parameter: with both a (nonempty) filter and
bounds, `CQL_FILTER` is the filter and the `bbox(...)` predicate joined by
`" AND "`; bounds alone yield the `bbox(...)` predicate against the
dataset's geometry column; a filter alone passes through verbatim; and no
descriptor ever carries a `bbox` request parameter. -/
theorem C5_cql_filter_bounds (table : String) (sch : WfsSchema)
    (crs bcrs : String) (count : Option Nat) (sortby : Option String)
    (n p : Nat) (b0 b1 b2 b3 : String) (q : String) (hq : q ≠ "") :
    ((defineRequests table n sch (some q) crs (some (b0, b1, b2, b3)) bcrs
        count sortby p).all
      (fun r => decide (r.CQL_FILTER
        = some (q ++ " AND "
            ++ bboxFilter sch.geometry_column b0 b1 b2 b3 bcrs)))) = true
    ∧ ((defineRequests table n sch none crs (some (b0, b1, b2, b3)) bcrs count
          sortby p).all
        (fun r => decide (r.CQL_FILTER
          = some (bboxFilter sch.geometry_column b0 b1 b2 b3 bcrs)))) = true
    ∧ ((defineRequests table n sch (some q) crs none bcrs count sortby p).all
        (fun r => decide (r.CQL_FILTER = some q))) = true
    ∧ ((defineRequests table n sch none crs none bcrs count sortby p).all
        (fun r => decide (r.CQL_FILTER = none))) = true
    ∧ ∀ (query : Option String)
        (bounds : Option (String × String × String × String)),
        ((defineRequests table n sch query crs bounds bcrs count sortby p).all
          (fun r => (toParams r).all (fun kv => kv.1 != "bbox"))) = true := by
  refine ⟨?_, ?_, ?_, ?_, ?_⟩
  · rw [List.all_eq_true]
    intro r hr
    obtain ⟨i, hi, hreq⟩ := mem_defineRequests hr
    rw [decide_eq_true_eq, hreq, requestForChunk_CQL_FILTER,
      baseRequest_CQL_FILTER]
    simp [cqlFilterOf, hq]
  · rw [List.all_eq_true]
    intro r hr
    obtain ⟨i, hi, hreq⟩ := mem_defineRequests hr
    rw [decide_eq_true_eq, hreq, requestForChunk_CQL_FILTER,
      baseRequest_CQL_FILTER]
    rfl
  · rw [List.all_eq_true]
    intro r hr
    obtain ⟨i, hi, hreq⟩ := mem_defineRequests hr
    rw [decide_eq_true_eq, hreq, requestForChunk_CQL_FILTER,
      baseRequest_CQL_FILTER]
    simp [cqlFilterOf, hq]
  · rw [List.all_eq_true]
    intro r hr
    obtain ⟨i, hi, hreq⟩ := mem_defineRequests hr
    rw [decide_eq_true_eq, hreq, requestForChunk_CQL_FILTER,
      baseRequest_CQL_FILTER]
    rfl
  · intro query bounds
    rw [List.all_eq_true]
    intro r hr
    exact toParams_no_bbox r

/-- Witness for C5: filter `A=1` and bounds `(1,2,3,4)` combine into one
AND-joined CQL filter on every descriptor. -/
theorem C5_cql_filter_bounds_witness :
    ((defineRequests "t" 5 ⟨["A"], "G"⟩ (some "A=1") "epsg:4326"
        (some ("1", "2", "3", "4")) "EPSG:3005" none none 10).all
      (fun r => decide (r.CQL_FILTER
        = some ("A=1" ++ " AND "
            ++ bboxFilter "G" "1" "2" "3" "4" "EPSG:3005")))) = true :=
  (C5_cql_filter_bounds "t" ⟨["A"], "G"⟩ "epsg:4326" "EPSG:3005" none none 5
    10 "1" "2" "3" "4" "A=1" (by decide)).1

/-- C10 (implicit-invariant): every pair of descriptors produced by one
`define_requests` call agree on all non-pagination request parameters —
service, version, request, typeName, outputFormat, SRSNAME, sortby and
CQL_FILTER — i.e. they are identical once `startIndex` and `count` are
erased. -/
theorem C10_uniform_request_params (table : String) (n : Nat)
    (sch : WfsSchema) (query : Option String) (crs : String)
    (bounds : Option (String × String × String × String)) (bcrs : String)
    (count : Option Nat) (sortby : Option String) (p : Nat) :
    ((defineRequests table n sch query crs bounds bcrs count sortby p).all
      (fun r1 =>
        (defineRequests table n sch query crs bounds bcrs count sortby p).all
          (fun r2 => decide (eraseWindow r1 = eraseWindow r2)))) = true := by
  rw [List.all_eq_true]
  intro r1 h1
  rw [List.all_eq_true]
  intro r2 h2
  obtain ⟨i, hi, e1⟩ := mem_defineRequests h1
  obtain ⟨j, hj, e2⟩ := mem_defineRequests h2
  rw [decide_eq_true_eq, e1, e2, eraseWindow_requestForChunk,
    eraseWindow_requestForChunk]

/-- C6: geometry normalization is a pure per-feature map over the batch that
rewraps a single `Point` as a one-element `MultiPoint`, a `LineString` as a
one-element `MultiLineString`, a `Polygon` as a one-element `MultiPolygon`,
passes already-multi and null geometries through unchanged, and is
idempotent: normalizing an already-normalized batch yields an identical
batch. -/
theorem C6_normalizer :
    (∀ batch : List Geometry, normalizeBatch batch = batch.map normalizeGeom)
    ∧ (∀ c, normalizeGeom (Geometry.point c) = Geometry.multipoint [c])
    ∧ (∀ cs, normalizeGeom (Geometry.linestring cs)
        = Geometry.multilinestring [cs])
    ∧ (∀ rs, normalizeGeom (Geometry.polygon rs) = Geometry.multipolygon [rs])
    ∧ (∀ cs, normalizeGeom (Geometry.multipoint cs) = Geometry.multipoint cs)
    ∧ (∀ ls, normalizeGeom (Geometry.multilinestring ls)
        = Geometry.multilinestring ls)
    ∧ (∀ ps, normalizeGeom (Geometry.multipolygon ps)
        = Geometry.multipolygon ps)
    ∧ normalizeGeom Geometry.null = Geometry.null
    ∧ (∀ batch, normalizeBatch (normalizeBatch batch) = normalizeBatch batch)
    := by
  have hmap : ∀ batch : List Geometry,
      normalizeBatch batch = batch.map normalizeGeom := by
    intro b
    simp only [normalizeBatch, List.map_map]
    rfl
  have hidem : ∀ g, normalizeGeom (normalizeGeom g) = normalizeGeom g := by
    intro g
    cases g <;> rfl
  refine ⟨hmap, fun c => rfl, fun cs => rfl, fun rs => rfl, fun cs => rfl,
    fun ls => rfl, fun ps => rfl, rfl, ?_⟩
  intro batch
  rw [hmap, hmap, List.map_map]
  apply List.map_congr_left
  intro g _
  exact hidem g

/-- C7 counterexample: a network-level request failure (e.g. a connection
error or timeout) is **not** an `HTTPError`, so `get_count`'s single
`except requests.exceptions.HTTPError` clause does not catch it — it
propagates uncaught rather than surfacing as the designated upstream-failure
exit (`SystemExit`). -/
theorem C7_get_count_counterexample :
    get_count HitsOutcome.requestFailure
      = Except.error PyFailure.uncaughtRequestException
    ∧ PyFailure.uncaughtRequestException ≠ PyFailure.systemExit :=
  ⟨rfl, by decide⟩

/-- C7 amended: `get_count` converts a non-success-status `HTTPError` into
the designated upstream-failure exit (`raise SystemExit(err)`); any other
network exception raised by `requests.get` (connection error, timeout)
propagates uncaught; a successful hits response yields the parsed count. -/
theorem C7_get_count_error_routing (n : Nat) :
    get_count HitsOutcome.httpStatusError = Except.error PyFailure.systemExit
    ∧ get_count HitsOutcome.requestFailure
        = Except.error PyFailure.uncaughtRequestException
    ∧ get_count (HitsOutcome.ok n) = Except.ok n :=
  ⟨rfl, rfl, rfl⟩

/-! ## Orchestrator lemmas -/

theorem gotDbColumns_not_in_loadLoop (batches : List (List Geometry)) :
    ∀ (idxs : List Nat) (df : Option (List Geometry)),
      Ev.gotDbColumns ∉ loadLoop batches idxs df := by
  intro idxs
  induction idxs with
  | nil => intro df; simp [loadLoop]
  | cons i rest ih =>
    intro df
    cases df <;> simp [loadLoop, ih]

theorem gotDbColumns_not_in_loadEvents (env : PgEnv) (a : Bc2pgArgs)
    (urls : List WfsRequest) (df0 : Option (List Geometry)) :
    Ev.gotDbColumns ∉ loadEvents env a urls df0 := by
  simp only [loadEvents]
  split
  · simp
  · intro hmem
    rcases List.mem_append.mp hmem with h | h
    · exact gotDbColumns_not_in_loadLoop _ _ _ h
    · revert h
      split <;> simp

theorem mem_afterColumns_events {env : PgEnv} {a : Bc2pgArgs}
    {urls : List WfsRequest} {evs : List Ev} {cols : List String}
    {df0 : Option (List Geometry)} {sn tn : String} {x : Ev} :
    x ∈ (afterColumns env a urls evs cols df0 sn tn).1 →
    x ∈ evs ∨ x ∈ loadEvents env a urls df0 := by
  simp only [afterColumns]
  split
  · exact fun h => Or.inl h
  · exact fun h => List.mem_append.mp h

theorem mem_probeEvents1 {a : Bc2pgArgs} {x : Ev} :
    x ∈ probeEvents1 a → x = Ev.fetchedFeatures 0 := by
  simp only [probeEvents1]
  split <;> simp

theorem mem_probeEvents2 {env : PgEnv} {a : Bc2pgArgs}
    {urls : List WfsRequest} {x : Ev} :
    x ∈ probeEvents2 env a urls → x = Ev.fetchedFeatures (urls.length - 1) := by
  simp only [probeEvents2]
  split
  · simp
  · split <;> simp

theorem mem_createBranch_events {env : PgEnv} {a : Bc2pgArgs}
    {urls : List WfsRequest} {evs : List Ev} {sn tn : String} {x : Ev} :
    x ∈ (createBranch env a urls evs sn tn).1 →
    x ∈ evs ∨ x = Ev.gotTableDefinition ∨ (∃ i, x = Ev.fetchedFeatures i)
    ∨ (∃ s, x = Ev.createdTable s)
    ∨ x ∈ loadEvents env a urls (probeDf env a) := by
  by_cases h1 : env.tableDefSchema = []
  · simp only [createBranch, h1, if_pos]
    intro h
    rcases List.mem_append.mp h with h | h
    · exact Or.inl h
    · simp only [List.mem_singleton] at h
      exact Or.inr (Or.inl h)
  · rcases h2 : probeType2 env a urls with _ | g
    · simp only [createBranch, if_neg h1, h2]
      intro h
      rcases List.mem_append.mp h with h | h
      · rcases List.mem_append.mp h with h | h
        · rcases List.mem_append.mp h with h | h
          · exact Or.inl h
          · simp only [List.mem_singleton] at h
            exact Or.inr (Or.inl h)
        · exact Or.inr (Or.inr (Or.inl ⟨0, mem_probeEvents1 h⟩))
      · exact Or.inr (Or.inr (Or.inl ⟨urls.length - 1, mem_probeEvents2 h⟩))
    · by_cases h3 : pyUpper g ∈ SUPPORTED_TYPES
      · by_cases h4 : primaryKeyBad env a = true
        · simp only [createBranch, if_neg h1, h2, h3, not_true, if_neg,
            if_pos, h4]
          intro h
          rcases List.mem_append.mp h with h | h
          · rcases List.mem_append.mp h with h | h
            · rcases List.mem_append.mp h with h | h
              · exact Or.inl h
              · simp only [List.mem_singleton] at h
                exact Or.inr (Or.inl h)
            · exact Or.inr (Or.inr (Or.inl ⟨0, mem_probeEvents1 h⟩))
          · exact Or.inr (Or.inr (Or.inl ⟨urls.length - 1, mem_probeEvents2 h⟩))
        · simp only [createBranch, if_neg h1, h2, h3, not_true, if_neg, h4,
            if_false]
          intro h
          rcases mem_afterColumns_events h with h | h
          · rcases List.mem_append.mp h with h | h
            · rcases List.mem_append.mp h with h | h
              · rcases List.mem_append.mp h with h | h
                · rcases List.mem_append.mp h with h | h
                  · exact Or.inl h
                  · simp only [List.mem_singleton] at h
                    exact Or.inr (Or.inl h)
                · exact Or.inr (Or.inr (Or.inl ⟨0, mem_probeEvents1 h⟩))
              · exact Or.inr (Or.inr (Or.inl
                  ⟨urls.length - 1, mem_probeEvents2 h⟩))
            · simp only [List.mem_singleton] at h
              exact Or.inr (Or.inr (Or.inr (Or.inl ⟨pyUpper g, h⟩)))
          · exact Or.inr (Or.inr (Or.inr (Or.inr h)))
      · simp only [createBranch, if_neg h1, h2, h3, if_pos]
        intro h
        rcases List.mem_append.mp h with h | h
        · rcases List.mem_append.mp h with h | h
          · rcases List.mem_append.mp h with h | h
            · exact Or.inl h
            · simp only [List.mem_singleton] at h
              exact Or.inr (Or.inl h)
          · exact Or.inr (Or.inr (Or.inl ⟨0, mem_probeEvents1 h⟩))
        · exact Or.inr (Or.inr (Or.inl ⟨urls.length - 1, mem_probeEvents2 h⟩))

theorem bc2pg_append_missing (env : PgEnv) (a : Bc2pgArgs)
    (ha : a.append = true) (hmem : bc2pgFullName a ∉ env.dbTables) :
    bc2pg env a
      = ([Ev.definedRequests, Ev.checkedDbTables],
         Except.error PgErr.targetMissing) := by
  simp only [bc2pgFullName] at hmem
  simp only [bc2pg, ha, if_true, if_pos hmem]
  rfl

/-- C8: an append-mode `bc2pg` run naming a table absent from the database
fails with the target-missing error with only the planning and
table-existence-check effects performed — in particular before any feature
fetch — and the existing table's column list is read (`gotDbColumns`) only
in runs whose target table exists. -/
theorem C8_append_validation :
    (∀ (env : PgEnv) (a : Bc2pgArgs), a.append = true →
      bc2pgFullName a ∉ env.dbTables →
      bc2pg env a = ([Ev.definedRequests, Ev.checkedDbTables],
        Except.error PgErr.targetMissing)
      ∧ (∀ i, Ev.fetchedFeatures i ∉ (bc2pg env a).1))
    ∧ (∀ (env : PgEnv) (a : Bc2pgArgs),
        Ev.gotDbColumns ∈ (bc2pg env a).1 → bc2pgFullName a ∈ env.dbTables)
    := by
  constructor
  · intro env a ha hmem
    refine ⟨bc2pg_append_missing env a ha hmem, ?_⟩
    intro i
    rw [bc2pg_append_missing env a ha hmem]
    simp
  · intro env a hmem
    by_cases ha : a.append = true
    · by_cases htab : bc2pgFullName a ∈ env.dbTables
      · exact htab
      · rw [bc2pg_append_missing env a ha htab] at hmem
        simp at hmem
    · exfalso
      have ha' : a.append = false := by
        cases h : a.append
        · rfl
        · exact absurd h ha
      have hbc : bc2pg env a
          = createBranch env a
              (defineRequests a.dataset env.totalCount env.wfsSchema a.query
                "epsg:3005" none "EPSG:3005" a.count a.sortby 10000)
              [Ev.definedRequests] (bc2pgSchemaName a) (bc2pgTableName a) := by
        simp only [bc2pg, ha', Bool.false_eq_true, if_false]
      rw [hbc] at hmem
      rcases mem_createBranch_events hmem with h | h | ⟨i, h⟩ | ⟨s, h⟩ | h
      · simp at h
      · simp at h
      · simp at h
      · simp at h
      · exact gotDbColumns_not_in_loadEvents _ _ _ _ h

/-- Witness for C8: an append run against an empty database fails with
`targetMissing` after only planning and the table check. -/
theorem C8_append_validation_witness :
    bc2pg ⟨[], [], ["A"], 1, ⟨["A"], "G"⟩, [[Geometry.point [1, 2]]]⟩
        ⟨"S.T", none, none, none, none, none, none, none, true, false, true⟩
      = ([Ev.definedRequests, Ev.checkedDbTables],
         Except.error PgErr.targetMissing) :=
  (C8_append_validation.1
    ⟨[], [], ["A"], 1, ⟨["A"], "G"⟩, [[Geometry.point [1, 2]]]⟩
    ⟨"S.T", none, none, none, none, none, none, none, true, false, true⟩
    rfl (by decide)).1

/-- C9 counterexample: the probe batch `[2-D point, 3-D point]` has an
inspected feature with a third coordinate, yet the resolved shape is
`POINT`, not `POINTZ` — the Z flag comes from `df.has_z.unique()[0]`, the
*first* row's `has_z`, not from "any inspected feature".  A full create-mode
`bc2pg` run over this batch creates the table as `POINT`. -/
theorem C9_z_flag_counterexample :
    resolveGeometryType [Geometry.point [0, 0], Geometry.point [0, 0, 1]]
      = some "Point"
    ∧ ([Geometry.point [0, 0], Geometry.point [0, 0, 1]].any geomHasZ) = true
    ∧ (resolveGeometryType
        [Geometry.point [0, 0], Geometry.point [0, 0, 1]]).map pyUpper
      = some "POINT"
    ∧ (resolveGeometryType
        [Geometry.point [0, 0], Geometry.point [0, 0, 1]]).map pyUpper
      ≠ some "POINTZ"
    ∧ Ev.createdTable "POINT"
        ∈ (bc2pg ⟨[], [], ["A"], 2, ⟨["A"], "G"⟩,
            [[Geometry.point [0, 0], Geometry.point [0, 0, 1]]]⟩
            ⟨"s.t", none, none, none, none, none, none, none, true, false,
             false⟩).1 :=
  ⟨rfl, rfl, by decide, by decide, by decide⟩

/-- C9 amended: the Z flag is appended iff the **first** inspected feature
of the probe batch carries a third coordinate (the code reads
`df.has_z.unique()[0]`); and the upper-cased resolved shape must belong to
`SUPPORTED_TYPES` — the create branch fails with the unsupported-type error
exactly when it does not. -/
theorem C9_geometry_type_resolution :
    (∀ (g : Geometry) (rest : List Geometry) (t : String),
      geomTypeName g = some t →
      resolveGeometryType (g :: rest)
        = some (if geomHasZ g then t ++ "Z" else t))
    ∧ (∀ (env : PgEnv) (a : Bc2pgArgs) (urls : List WfsRequest)
        (evs : List Ev) (sn tn : String) (g : String),
        env.tableDefSchema ≠ [] → a.geometry_type = some g → g ≠ "" →
        pyUpper g ∉ SUPPORTED_TYPES →
        (createBranch env a urls evs sn tn).2
          = Except.error PgErr.unsupportedGeometry)
    ∧ (∀ (env : PgEnv) (a : Bc2pgArgs) (urls : List WfsRequest)
        (evs : List Ev) (sn tn : String) (g : String),
        env.tableDefSchema ≠ [] → a.geometry_type = some g → g ≠ "" →
        pyUpper g ∈ SUPPORTED_TYPES →
        (createBranch env a urls evs sn tn).2
          ≠ Except.error PgErr.unsupportedGeometry) := by
  refine ⟨?_, ?_, ?_⟩
  · intro g rest t h
    simp [resolveGeometryType, h]
  · intro env a urls evs sn tn g hne hgt hgne h4
    have ht2 : probeType2 env a urls = some g := by
      simp [probeType2, probeType1, truthyStr, hgt, hgne]
    simp [createBranch, hne, ht2, h4]
  · intro env a urls evs sn tn g hne hgt hgne h4
    have ht2 : probeType2 env a urls = some g := by
      simp [probeType2, probeType1, truthyStr, hgt, hgne]
    simp [createBranch, hne, ht2, h4]
    by_cases h5 : primaryKeyBad env a = true
    · simp [h5]
    · simp [h5, afterColumns]
      split <;> simp

/-- Witness for the amended C9: a single 3-D point probe resolves to
`PointZ` (the first feature's third coordinate sets the flag). -/
theorem C9_geometry_type_resolution_witness :
    resolveGeometryType [Geometry.point [1, 2, 3]] = some "PointZ" := by
  have h := C9_geometry_type_resolution.1 (Geometry.point [1, 2, 3]) []
    "Point" rfl
  exact h.trans (by decide)
